import Mathlib

/-!
Shallow embedding of the route-computation and airport-marker-density engine
of PlaneCode (src/src/app.jsx).

JavaScript numbers are modelled by the rationals: every arithmetic operation
the embedded functions perform (division, addition, Math.floor, Math.round,
toFixed(0)) is exact on the rationals, and the concrete inputs used below are
far from any binary floating-point rounding boundary.  The transcendental
great-circle distance (turf.distance / Leaflet distanceTo, a haversine) is
not representable in the rationals; it is abstracted as an oracle argument
`dist`, exactly as the spec treats the Geodesy component as a collaborator
supplying a single number to the estimator and to the session.
-/

namespace PlaneCode

/-- An airport record from airports.json, as consumed by app.jsx.
The `level` field is optional in the dataset (app.jsx guards it with
`airport.level || 1` in the maxLevel aggregate and compares it with
strict equality in the marker accumulation loop). -/
structure Airport where
  icao : String
  iata : String
  name : String
  city : String
  country : String
  lat : ℚ
  lon : ℚ
  level : Option ℕ
  deriving Repr, DecidableEq

/-! Constants, app.jsx lines 8-14. -/

def KM_TO_MILES_CONVERSION : ℚ := 621371 / 1000000

def TAXI_TAKEOFF_LANDING_HOURS : ℚ := 1 / 2

def MAX_VISIBLE_AIRPORTS : ℕ := 20

def MIN_ZOOM_FOR_MARKERS : ℤ := 5

/-- One band of the aircraft lookup table (app.jsx lines 57-62).
`maxDistance = none` models the JavaScript `Infinity` bound of the last
band: `d < Infinity` is true for every finite number. -/
structure AircraftConfig where
  maxDistance : Option ℚ
  name : String
  speedKmh : ℚ
  deriving Repr, DecidableEq

def regionalJetConfig : AircraftConfig :=
  ⟨some 500, "Regional Jet (e.g., Embraer E175)", 700⟩

def narrowBodyConfig : AircraftConfig :=
  ⟨some 1500, "Narrow Body (e.g., Boeing 737, Airbus A320)", 800⟩

def wideBodyConfig : AircraftConfig :=
  ⟨some 6000, "Wide Body (e.g., Boeing 787, Airbus A350)", 900⟩

def largeWideBodyConfig : AircraftConfig :=
  ⟨none, "Large Wide Body (e.g., Boeing 777, Airbus A380)", 920⟩

def AIRCRAFT_CONFIG : List AircraftConfig :=
  [regionalJetConfig, narrowBodyConfig, wideBodyConfig, largeWideBodyConfig]

/-- The predicate of `AIRCRAFT_CONFIG.find(cfg => distanceKm < cfg.maxDistance)`. -/
def bandMatches (d : ℚ) (cfg : AircraftConfig) : Bool :=
  match cfg.maxDistance with
  | none => true
  | some m => decide (d < m)

/-- The lookup `AIRCRAFT_CONFIG.find(cfg => distanceKm < cfg.maxDistance)`
(app.jsx line 330).  The JS `find` returns `undefined` only if no band
matches, which never happens because the last band is unbounded; the
`getD` default is therefore unreachable (see classify_eq). -/
def classify (d : ℚ) : AircraftConfig :=
  (AIRCRAFT_CONFIG.find? (bandMatches d)).getD largeWideBodyConfig

theorem classify_eq (d : ℚ) :
    classify d =
      if d < 500 then regionalJetConfig
      else if d < 1500 then narrowBodyConfig
      else if d < 6000 then wideBodyConfig
      else largeWideBodyConfig := by
  simp only [classify, AIRCRAFT_CONFIG, List.find?, bandMatches,
    regionalJetConfig, narrowBodyConfig, wideBodyConfig, largeWideBodyConfig]
  by_cases h1 : d < 500 <;> by_cases h2 : d < 1500 <;> by_cases h3 : d < 6000 <;>
    simp [h1, h2, h3]

/-- The result record of calculateFlightTime (app.jsx line 339). -/
structure FlightTime where
  hours : ℤ
  minutes : ℤ
  aircraft : String
  deriving Repr, DecidableEq

/-- calculateFlightTime (app.jsx lines 328-340).
`Math.floor` is `Int.floor`; JavaScript `Math.round x` is
`Int.floor (x + 1/2)`, which is the Mathlib function `round` on ℚ. -/
def calculateFlightTime (distanceKm : ℚ) : FlightTime :=
  let config := classify distanceKm
  let flightTimeHours := distanceKm / config.speedKmh + TAXI_TAKEOFF_LANDING_HOURS
  let hours := ⌊flightTimeHours⌋
  let minutes := round ((flightTimeHours - hours) * 60)
  ⟨hours, minutes, config.name⟩

end PlaneCode

namespace PlaneCode

/-- Full characterization of the band lookup, shared by several claims. -/
theorem classify_iff (d : ℚ) :
    (classify d = regionalJetConfig ↔ d < 500) ∧
    (classify d = narrowBodyConfig ↔ 500 ≤ d ∧ d < 1500) ∧
    (classify d = wideBodyConfig ↔ 1500 ≤ d ∧ d < 6000) ∧
    (classify d = largeWideBodyConfig ↔ 6000 ≤ d) := by
  rw [classify_eq]
  by_cases h1 : d < 500
  · rw [if_pos h1]
    refine ⟨iff_of_true rfl h1, ?_, ?_, ?_⟩
    · exact iff_of_false (by decide) (by rintro ⟨h, -⟩; linarith)
    · exact iff_of_false (by decide) (by rintro ⟨h, -⟩; linarith)
    · exact iff_of_false (by decide) (by intro h; linarith)
  · by_cases h2 : d < 1500
    · rw [if_neg h1, if_pos h2]
      refine ⟨iff_of_false (by decide) h1,
        iff_of_true rfl ⟨le_of_not_lt h1, h2⟩, ?_, ?_⟩
      · exact iff_of_false (by decide) (by rintro ⟨h, -⟩; linarith)
      · exact iff_of_false (by decide) (by intro h; linarith)
    · by_cases h3 : d < 6000
      · rw [if_neg h1, if_neg h2, if_pos h3]
        refine ⟨iff_of_false (by decide) h1,
          iff_of_false (by decide) (by rintro ⟨-, h⟩; exact h2 h),
          iff_of_true rfl ⟨le_of_not_lt h2, h3⟩,
          iff_of_false (by decide) (by intro h; linarith)⟩
      · rw [if_neg h1, if_neg h2, if_neg h3]
        refine ⟨iff_of_false (by decide) h1,
          iff_of_false (by decide) (by rintro ⟨-, h⟩; exact h2 h),
          iff_of_false (by decide) (by rintro ⟨-, h⟩; exact h3 h),
          iff_of_true rfl (le_of_not_lt h3)⟩

/-- C5: classify returns the first band of the ordered table whose
maxDistance exceeds distanceKm (spelled out on the concrete table: each
band is hit exactly on the half-open interval left over by the earlier
bands), and the four boundary evaluations called out by the spec hold:
classify 499.999 = Regional Jet, classify 500 = Narrow Body,
classify 1500 = Wide Body, classify 6000 = Large Wide Body. -/
theorem classify_bands :
    (∀ d : ℚ,
      (classify d = regionalJetConfig ↔ d < 500) ∧
      (classify d = narrowBodyConfig ↔ 500 ≤ d ∧ d < 1500) ∧
      (classify d = wideBodyConfig ↔ 1500 ≤ d ∧ d < 6000) ∧
      (classify d = largeWideBodyConfig ↔ 6000 ≤ d)) ∧
    classify (499999 / 1000) = regionalJetConfig ∧
    classify 500 = narrowBodyConfig ∧
    classify 1500 = wideBodyConfig ∧
    classify 6000 = largeWideBodyConfig := by
  refine ⟨classify_iff, ?_, ?_, ?_, ?_⟩
  · exact (classify_iff _).1.mpr (by norm_num)
  · exact (classify_iff _).2.1.mpr (by norm_num)
  · exact (classify_iff _).2.2.1.mpr (by norm_num)
  · exact (classify_iff _).2.2.2.mpr (by norm_num)

/-- C2: the code does not carry minutes into hours.  At distanceKm = 345
(Regional Jet band, 700 km/h) the total is 345/700 + 1/2 = 0.992857 hours,
so hours = 0 and minutes = round(59.571) = 60: the function returns the
value 0 h 60 min, with minutes outside [0, 59]. -/
theorem calculateFlightTime_345_returns_60_minutes :
    calculateFlightTime 345 =
      ⟨0, 60, "Regional Jet (e.g., Embraer E175)"⟩ ∧
    (calculateFlightTime 345).minutes = 60 := by
  have hcl : classify (345 : ℚ) = regionalJetConfig := (classify_iff 345).1.mpr (by norm_num)
  have h1 : calculateFlightTime 345 =
      ⟨⌊(345 : ℚ) / 700 + 1 / 2⌋,
       round (((345 : ℚ) / 700 + 1 / 2 - (⌊(345 : ℚ) / 700 + 1 / 2⌋ : ℚ)) * 60),
       "Regional Jet (e.g., Embraer E175)"⟩ := by
    simp only [calculateFlightTime, hcl, regionalJetConfig, TAXI_TAKEOFF_LANDING_HOURS]
  have hfl : (⌊(345 : ℚ) / 700 + 1 / 2⌋ : ℤ) = 0 := by
    rw [Int.floor_eq_iff]
    norm_num
  have hrd : round (((345 : ℚ) / 700 + 1 / 2 - ((0 : ℤ) : ℚ)) * 60) = 60 := by
    rw [round_eq, Int.floor_eq_iff]
    norm_num
  have hmain : calculateFlightTime 345 =
      ⟨0, 60, "Regional Jet (e.g., Embraer E175)"⟩ := by
    rw [h1, hfl, hrd]
  exact ⟨hmain, by rw [hmain]⟩

/-- Evaluation of calculateFlightTime on the Wide Body band, shared by the
theorems about the JFK-LHR scenario. -/
theorem calculateFlightTime_wide (d : ℚ) (h1 : 1500 ≤ d) (h2 : d < 6000) :
    calculateFlightTime d =
      ⟨⌊d / 900 + 1 / 2⌋,
       round ((d / 900 + 1 / 2 - (⌊d / 900 + 1 / 2⌋ : ℚ)) * 60),
       "Wide Body (e.g., Boeing 787, Airbus A350)"⟩ := by
  have hcl : classify d = wideBodyConfig := (classify_iff d).2.2.1.mpr ⟨h1, h2⟩
  simp only [calculateFlightTime, hcl, wideBodyConfig, TAXI_TAKEOFF_LANDING_HOURS]

/-- Bounds on the hour and minute fields for a distance in the Wide Body
band lying in the interval [lo, hi] with 6 ≤ lo/900 + 1/2 and
hi/900 + 1/2 < 7. -/
theorem flightTime_hour_six (d : ℚ) (hlo : 4950 ≤ d) (hhi : d < 5850) :
    (⌊d / 900 + 1 / 2⌋ : ℤ) = 6 := by
  rw [Int.floor_eq_iff]
  constructor <;> push_cast <;> linarith

end PlaneCode

namespace PlaneCode

/-- C6 counterexample: the claimed figures are jointly impossible.  Under
the fixed formula totalHours = distanceKm/900 + 0.5, ANY distance within
10 km of 5555 yields an estimated time of 6 h 40-41 min, which is not
within 2 minutes of the claimed 6 h 34 min.  In particular this holds for
the distance the code actually computes, whatever its exact value. -/
theorem jfk_lhr_claimed_time_impossible :
    ¬ ∃ d : ℚ, |d - 5555| ≤ 10 ∧ classify d = wideBodyConfig ∧
      |((calculateFlightTime d).hours * 60 + (calculateFlightTime d).minutes : ℤ)
        - (6 * 60 + 34)| ≤ 2 := by
  rintro ⟨d, hd, -, ht⟩
  rw [abs_le] at hd
  have h1 : (5545 : ℚ) ≤ d := by linarith [hd.1]
  have h2 : d ≤ 5565 := by linarith [hd.2]
  have heval := calculateFlightTime_wide d (by linarith) (by linarith)
  have hfl : (⌊d / 900 + 1 / 2⌋ : ℤ) = 6 := flightTime_hour_six d (by linarith) (by linarith)
  rw [heval] at ht
  simp only [hfl] at ht
  -- the minutes argument is (d/900 + 1/2 - 6) * 60 = d/15 - 330 ∈ [39.66, 41]
  have hround : 40 ≤ round ((d / 900 + 1 / 2 - ((6 : ℤ) : ℚ)) * 60) ∧
      round ((d / 900 + 1 / 2 - ((6 : ℤ) : ℚ)) * 60) ≤ 41 := by
    rw [round_eq]
    constructor
    · rw [Int.le_floor]; push_cast; linarith
    · have : ⌊(d / 900 + 1 / 2 - ((6 : ℤ) : ℚ)) * 60 + 1 / 2⌋ < 42 := by
        rw [Int.floor_lt]; push_cast; linarith
      omega
  rw [abs_le] at ht
  omega

/-- C6 amended: turf.distance is a haversine on a sphere of radius
6371.0088 km, which for JFK (40.6413, -73.7781) to LHR (51.4700, -0.4543)
gives approximately 5540.0 km (the 5555 figure is the WGS84 geodesic
distance, which the code does not compute).  For every distanceKm within
10 km of 5540 the route classifies as Wide Body and the estimated flight
time is 6 h 39-40 min, i.e. within 1 minute of 6 h 39 min, under the
fixed formula totalHours = distanceKm/900 + 0.5. -/
theorem jfk_lhr_route_metrics (d : ℚ) (h : |d - 5540| ≤ 10) :
    classify d = wideBodyConfig ∧ (calculateFlightTime d).hours = 6 ∧
    |(calculateFlightTime d).minutes - 39| ≤ 1 := by
  rw [abs_le] at h
  have h1 : (5530 : ℚ) ≤ d := by linarith [h.1]
  have h2 : d ≤ 5550 := by linarith [h.2]
  have hcl : classify d = wideBodyConfig :=
    (classify_iff d).2.2.1.mpr ⟨by linarith, by linarith⟩
  have heval := calculateFlightTime_wide d (by linarith) (by linarith)
  have hfl : (⌊d / 900 + 1 / 2⌋ : ℤ) = 6 := flightTime_hour_six d (by linarith) (by linarith)
  rw [heval]
  simp only [hfl]
  refine ⟨hcl, trivial, ?_⟩
  have hround : 39 ≤ round ((d / 900 + 1 / 2 - ((6 : ℤ) : ℚ)) * 60) ∧
      round ((d / 900 + 1 / 2 - ((6 : ℤ) : ℚ)) * 60) ≤ 40 := by
    rw [round_eq]
    constructor
    · rw [Int.le_floor]; push_cast; linarith
    · have : ⌊(d / 900 + 1 / 2 - ((6 : ℤ) : ℚ)) * 60 + 1 / 2⌋ < 41 := by
        rw [Int.floor_lt]; push_cast; linarith
      omega
  rw [abs_le]
  omega

/-- Witness for jfk_lhr_route_metrics at the central distance 5540 km. -/
theorem jfk_lhr_route_metrics_witness :
    classify 5540 = wideBodyConfig ∧ (calculateFlightTime 5540).hours = 6 ∧
    |(calculateFlightTime 5540).minutes - 39| ≤ 1 :=
  jfk_lhr_route_metrics 5540 (by norm_num)

/-! Route Session (app.jsx lines 342-393 createRoute, 395-411 clearRoute,
424-521 handleAirportSelect).  The transcendental turf.distance is passed
as the oracle argument `dist`. -/

/-- JavaScript Number.prototype.toFixed(0): round half away from zero.
app.jsx stores distance.toFixed(0) and distanceMiles.toFixed(0) in the
routeInfo state (lines 380-381); the numeric content of those strings is
this integer. -/
def jsToFixed0 (q : ℚ) : ℤ :=
  if q < 0 then -round (-q) else round q

/-- The routeInfo record set by createRoute (app.jsx lines 377-385).
distanceKm and distanceMiles hold the toFixed(0)-rounded values exactly
as exposed to the rendering layer. -/
structure RouteInfo where
  origin : Airport
  destination : Airport
  distanceKm : ℤ
  distanceMiles : ℤ
  hours : ℤ
  minutes : ℤ
  aircraft : String
  deriving Repr, DecidableEq

/-- createRoute (app.jsx lines 342-393), restricted to its state effect:
distance = turf.distance(from, to) (the oracle), distanceMiles =
distance * KM_TO_MILES_CONVERSION, flight time from calculateFlightTime,
all packed into the routeInfo record (map drawing omitted). -/
def createRoute (dist : Airport → Airport → ℚ) (origin destination : Airport) : RouteInfo :=
  let distance := dist origin destination
  let distanceMiles := distance * KM_TO_MILES_CONVERSION
  let ft := calculateFlightTime distance
  ⟨origin, destination, jsToFixed0 distance, jsToFixed0 distanceMiles,
    ft.hours, ft.minutes, ft.aircraft⟩

/-- The selection state of the App component: originAirport,
destinationAirport and routeInfo (app.jsx lines 76-78). -/
structure SessionState where
  originAirport : Option Airport
  destinationAirport : Option Airport
  routeInfo : Option RouteInfo
  deriving Repr, DecidableEq

/-- handleAirportSelect (app.jsx lines 424-521), restricted to its state
effect.  Branch 1 (no origin): set the origin.  Branch 2 (origin, no
destination): set the destination and create the route — note there is no
comparison of airport.icao against the icao of the origin anywhere in this
function.  Branch 3 (both set): clearRoute() then set the new origin. -/
def handleAirportSelect (dist : Airport → Airport → ℚ)
    (s : SessionState) (airport : Airport) : SessionState :=
  match s.originAirport with
  | none => { s with originAirport := some airport }
  | some origin =>
    match s.destinationAirport with
    | none =>
      { s with destinationAirport := some airport,
               routeInfo := some (createRoute dist origin airport) }
    | some _ =>
      { originAirport := some airport, destinationAirport := none, routeInfo := none }

def jfkAirport : Airport :=
  ⟨"KJFK", "JFK", "John F Kennedy International Airport", "New York",
    "United States", 406413 / 10000, -737781 / 10000, some 1⟩

/-- Distance oracle for a run whose two endpoints coincide: the haversine
distance from a point to itself is exactly 0, so on that run this oracle
returns exactly what turf.distance returns. -/
def zeroOracle : Airport → Airport → ℚ := fun _ _ => 0

/-- C1 counterexample: selecting the origin airport again is NOT a no-op.
Starting from the empty session, selecting JFK puts the session in the
OriginSelected state; selecting JFK again (same icao) sets it as the
destination and produces a route — the state changes, contradicting the
claimed silent ignore. -/
theorem select_same_airport_not_noop :
    handleAirportSelect zeroOracle ⟨none, none, none⟩ jfkAirport =
      ⟨some jfkAirport, none, none⟩ ∧
    (handleAirportSelect zeroOracle ⟨some jfkAirport, none, none⟩
        jfkAirport).destinationAirport = some jfkAirport ∧
    (handleAirportSelect zeroOracle ⟨some jfkAirport, none, none⟩
        jfkAirport).routeInfo.isSome = true ∧
    handleAirportSelect zeroOracle ⟨some jfkAirport, none, none⟩ jfkAirport ≠
      ⟨some jfkAirport, none, none⟩ := by
  refine ⟨rfl, rfl, rfl, fun hcon => ?_⟩
  have hd := congrArg SessionState.destinationAirport hcon
  simp [handleAirportSelect] at hd

/-- C1 amended: in the OriginSelected state handleAirportSelect sets the
selected airport as destination and computes a route even when its icao
equals the icao of the origin; the session state always changes. -/
theorem select_in_origin_selected_sets_destination
    (dist : Airport → Airport → ℚ) (o a : Airport) (h : a.icao = o.icao) :
    handleAirportSelect dist ⟨some o, none, none⟩ a =
      ⟨some o, some a, some (createRoute dist o a)⟩ ∧
    handleAirportSelect dist ⟨some o, none, none⟩ a ≠ ⟨some o, none, none⟩ := by
  refine ⟨rfl, fun hcon => ?_⟩
  have hd := congrArg SessionState.destinationAirport hcon
  simp [handleAirportSelect] at hd

/-- Witness for select_in_origin_selected_sets_destination with both
airports equal to JFK (equal icao trivially). -/
theorem select_in_origin_selected_sets_destination_witness :
    handleAirportSelect zeroOracle ⟨some jfkAirport, none, none⟩ jfkAirport =
      ⟨some jfkAirport, some jfkAirport,
        some (createRoute zeroOracle jfkAirport jfkAirport)⟩ :=
  (select_in_origin_selected_sets_destination zeroOracle jfkAirport jfkAirport rfl).1

def lhrAirport : Airport :=
  ⟨"EGLL", "LHR", "London Heathrow Airport", "London",
    "United Kingdom", 51470 / 1000, -4543 / 10000, some 1⟩

/-- Distance oracle returning 1000 km, used to probe the rounding of the
exposed route fields at a concrete distance value. -/
def kmOracle1000 : Airport → Airport → ℚ := fun _ _ => 1000

/-- C9 counterexample: the exposed routeInfo fields are toFixed(0)-rounded
(app.jsx lines 380-381), so they do not satisfy the exact relation
distanceMiles = distanceKm * 0.621371.  At distance 1000 km the exposed
fields are 1000 and 621, but 1000 * 0.621371 = 621.371 ≠ 621. -/
theorem exposed_distance_fields_not_exact :
    ((createRoute kmOracle1000 jfkAirport lhrAirport).distanceMiles : ℚ) ≠
      ((createRoute kmOracle1000 jfkAirport lhrAirport).distanceKm : ℚ) *
        KM_TO_MILES_CONVERSION := by
  have hkm : (createRoute kmOracle1000 jfkAirport lhrAirport).distanceKm = 1000 := by
    simp only [createRoute, kmOracle1000, jsToFixed0]
    norm_num
  have hmi : (createRoute kmOracle1000 jfkAirport lhrAirport).distanceMiles = 621 := by
    simp only [createRoute, kmOracle1000, jsToFixed0, KM_TO_MILES_CONVERSION]
    rw [if_neg (by norm_num), round_eq]
    norm_num
  rw [hkm, hmi, KM_TO_MILES_CONVERSION]
  norm_num

/-- C9 amended: internally distanceMiles = distanceKm * 0.621371 holds
exactly, but the exposed routeInfo fields are those two values rounded
with toFixed(0), so the exposed fields satisfy the relation only within
(1 + 0.621371) / 2. -/
theorem exposed_distance_fields_relation
    (dist : Airport → Airport → ℚ) (o a : Airport) (h : 0 ≤ dist o a) :
    (createRoute dist o a).distanceKm = jsToFixed0 (dist o a) ∧
    (createRoute dist o a).distanceMiles =
      jsToFixed0 (dist o a * KM_TO_MILES_CONVERSION) ∧
    |((createRoute dist o a).distanceMiles : ℚ) -
        ((createRoute dist o a).distanceKm : ℚ) * KM_TO_MILES_CONVERSION| ≤
      (1 + KM_TO_MILES_CONVERSION) / 2 := by
  refine ⟨rfl, rfl, ?_⟩
  set x := dist o a with hx
  have hc : (0 : ℚ) < KM_TO_MILES_CONVERSION := by rw [KM_TO_MILES_CONVERSION]; norm_num
  have hxc : (0 : ℚ) ≤ x * KM_TO_MILES_CONVERSION := mul_nonneg h hc.le
  have e1 : (createRoute dist o a).distanceMiles = round (x * KM_TO_MILES_CONVERSION) := by
    simp only [createRoute, jsToFixed0]
    rw [if_neg (not_lt.mpr hxc)]
  have e2 : (createRoute dist o a).distanceKm = round x := by
    simp only [createRoute, jsToFixed0]
    rw [if_neg (not_lt.mpr h)]
  rw [e1, e2]
  have t1 : |((round (x * KM_TO_MILES_CONVERSION) : ℤ) : ℚ) - x * KM_TO_MILES_CONVERSION|
      ≤ 1 / 2 := by
    rw [abs_sub_comm]; exact abs_sub_round _
  have t2 : |x * KM_TO_MILES_CONVERSION - ((round x : ℤ) : ℚ) * KM_TO_MILES_CONVERSION|
      ≤ KM_TO_MILES_CONVERSION / 2 := by
    rw [show x * KM_TO_MILES_CONVERSION - ((round x : ℤ) : ℚ) * KM_TO_MILES_CONVERSION
        = (x - ((round x : ℤ) : ℚ)) * KM_TO_MILES_CONVERSION by ring]
    rw [abs_mul, abs_of_pos hc]
    have := abs_sub_round x
    calc |x - ((round x : ℤ) : ℚ)| * KM_TO_MILES_CONVERSION
        ≤ (1 / 2) * KM_TO_MILES_CONVERSION := by
          exact mul_le_mul_of_nonneg_right this hc.le
      _ = KM_TO_MILES_CONVERSION / 2 := by ring
  calc |((round (x * KM_TO_MILES_CONVERSION) : ℤ) : ℚ) -
          ((round x : ℤ) : ℚ) * KM_TO_MILES_CONVERSION|
      ≤ |((round (x * KM_TO_MILES_CONVERSION) : ℤ) : ℚ) - x * KM_TO_MILES_CONVERSION| +
        |x * KM_TO_MILES_CONVERSION - ((round x : ℤ) : ℚ) * KM_TO_MILES_CONVERSION| :=
        abs_sub_le _ _ _
    _ ≤ 1 / 2 + KM_TO_MILES_CONVERSION / 2 := add_le_add t1 t2
    _ = (1 + KM_TO_MILES_CONVERSION) / 2 := by ring

/-- Witness for exposed_distance_fields_relation at the 1000 km oracle. -/
theorem exposed_distance_fields_relation_witness :
    (createRoute kmOracle1000 jfkAirport lhrAirport).distanceKm =
      jsToFixed0 (kmOracle1000 jfkAirport lhrAirport) ∧
    (createRoute kmOracle1000 jfkAirport lhrAirport).distanceMiles =
      jsToFixed0 (kmOracle1000 jfkAirport lhrAirport * KM_TO_MILES_CONVERSION) ∧
    |((createRoute kmOracle1000 jfkAirport lhrAirport).distanceMiles : ℚ) -
        ((createRoute kmOracle1000 jfkAirport lhrAirport).distanceKm : ℚ) *
          KM_TO_MILES_CONVERSION| ≤ (1 + KM_TO_MILES_CONVERSION) / 2 :=
  exposed_distance_fields_relation kmOracle1000 jfkAirport lhrAirport (by norm_num [kmOracle1000])

/-! Viewport Marker Selector (app.jsx lines 155-290).  The inputs are the
full dataset, the list of airports whose markers are preserved because
their popup is open (markersToPreserve, the pinned set), the map bounds
and the zoom level; the output is the list of airports that end up with a
marker: the preserved markers followed by the newly created ones. -/

/-- The aggregate of app.jsx lines 156-158:
airports.reduce((max, airport) => Math.max(max, airport.level || 1), 1).
In JavaScript `airport.level || 1` yields 1 both for an absent level and
for a level of 0 (both falsy). -/
def levelOrOne (a : Airport) : ℕ :=
  match a.level with
  | none => 1
  | some n => if n = 0 then 1 else n

def maxLevel (airports : List Airport) : ℕ :=
  airports.foldl (fun m a => max m (levelOrOne a)) 1

/-- A Leaflet LatLngBounds rectangle. -/
structure Box where
  north : ℚ
  south : ℚ
  east : ℚ
  west : ℚ
  deriving Repr, DecidableEq

/-- bounds.contains([airport.lat, airport.lon]) (app.jsx line 187). -/
def boxContains (b : Box) (a : Airport) : Bool :=
  decide (b.south ≤ a.lat) && decide (a.lat ≤ b.north) &&
    decide (b.west ≤ a.lon) && decide (a.lon ≤ b.east)

/-- The while loop of app.jsx lines 190-198:
while (airportsToShow.length < MAX_VISIBLE_AIRPORTS && currentLevel <= maxLevel)
append visible.filter(a => a.level === currentLevel) and increment
currentLevel.  The strict `===` comparison means an airport with an
absent level matches no iteration.  `levelsLeft` is the loop counter
maxLvl - currentLevel + 1 (the number of levels the loop may still
visit), which makes the recursion structural; the enclosing caller always
starts it at currentLevel = 1 with levelsLeft = maxLvl. -/
def accumulateLevels (visible : List Airport) :
    ℕ → ℕ → List Airport → List Airport
  | 0, _, acc => acc
  | n + 1, curr, acc =>
    if acc.length < MAX_VISIBLE_AIRPORTS then
      accumulateLevels visible n (curr + 1)
        (acc ++ visible.filter (fun a => decide (a.level = some curr)))
    else acc

/-- Lines 186-203: the bounding-box filter, the level accumulation and the
final slice(0, MAX_VISIBLE_AIRPORTS) truncation. -/
def airportsToShow (airports : List Airport) (b : Box) : List Airport :=
  let visible := airports.filter (fun a => boxContains b a)
  let acc := accumulateLevels visible (maxLevel airports) 1 []
  if MAX_VISIBLE_AIRPORTS < acc.length then acc.take MAX_VISIBLE_AIRPORTS else acc

/-- updateAirportMarkers (app.jsx lines 166-274): markers with open popups
(the pinned list) are preserved unconditionally; if zoom <
MIN_ZOOM_FOR_MARKERS nothing else is shown; otherwise markers are created
for the accumulated airports whose icao is not among the preserved ones
(lines 206-215). -/
def updateAirportMarkers (airports pinned : List Airport) (b : Box) (zoom : ℤ) :
    List Airport :=
  if zoom < MIN_ZOOM_FOR_MARKERS then pinned
  else
    let preservedICAOs := pinned.map (fun p => p.icao)
    pinned ++ (airportsToShow airports b).filter
      (fun a => !(preservedICAOs.contains a.icao))

theorem accumulateLevels_stop (visible : List Airport) (n curr : ℕ)
    (acc : List Airport) (h : ¬ acc.length < MAX_VISIBLE_AIRPORTS) :
    accumulateLevels visible n curr acc = acc := by
  cases n with
  | zero => rfl
  | succ n => simp [accumulateLevels, h]

theorem mem_accumulateLevels (visible : List Airport) :
    ∀ (n curr : ℕ) (acc : List Airport) (a : Airport),
      a ∈ accumulateLevels visible n curr acc →
      a ∈ acc ∨ (a ∈ visible ∧ ∃ c, a.level = some c) := by
  intro n
  induction n with
  | zero => intro curr acc a h; exact Or.inl h
  | succ n ih =>
    intro curr acc a h
    rw [accumulateLevels] at h
    by_cases hlen : acc.length < MAX_VISIBLE_AIRPORTS
    · rw [if_pos hlen] at h
      rcases ih _ _ _ h with hmem | hx
      · rcases List.mem_append.mp hmem with h1 | h2
        · exact Or.inl h1
        · have hf := List.mem_filter.mp h2
          exact Or.inr ⟨hf.1, curr, of_decide_eq_true hf.2⟩
      · exact Or.inr hx
    · rw [if_neg hlen] at h
      exact Or.inl h

theorem length_filter_partition {α : Type} (p : α → Bool) (l : List α) :
    (l.filter p).length + (l.filter (fun a => !p a)).length = l.length := by
  induction l with
  | nil => rfl
  | cons x l ih =>
    by_cases h : p x <;> simp [List.filter_cons, h] <;> omega

theorem le_foldl_maxLevel :
    ∀ (l : List Airport) (init : ℕ),
      init ≤ l.foldl (fun m a => max m (levelOrOne a)) init
  | [], _ => le_refl _
  | x :: l, init =>
    le_trans (le_max_left init (levelOrOne x)) (le_foldl_maxLevel l _)

theorem one_le_maxLevel (airports : List Airport) : 1 ≤ maxLevel airports :=
  le_foldl_maxLevel airports 1

/-- A level-1 airport at the origin with a distinct icao per index, for the
concrete marker-selector scenarios. -/
def testAirport (i : ℕ) : Airport :=
  ⟨toString i, "", "Airport " ++ toString i, "City", "Country", 0, 0, some 1⟩

/-- n distinct level-1 airports, all at (0, 0). -/
def testAirports (n : ℕ) : List Airport := (List.range n).map testAirport

/-- A box around the origin: every testAirport is in view. -/
def testBox : Box := ⟨1, -1, 1, -1⟩

/-- C8: a pinned (open-popup) airport always appears in the marker set,
whatever the bounding box and zoom; and below the zoom threshold the
selector returns exactly the pinned airports. -/
theorem pinned_always_shown (airports pinned : List Airport) (b : Box) (zoom : ℤ) :
    (∀ p ∈ pinned, p ∈ updateAirportMarkers airports pinned b zoom) ∧
    (zoom < MIN_ZOOM_FOR_MARKERS →
      updateAirportMarkers airports pinned b zoom = pinned) := by
  constructor
  · intro p hp
    rw [updateAirportMarkers]
    by_cases hz : zoom < MIN_ZOOM_FOR_MARKERS
    · rw [if_pos hz]; exact hp
    · rw [if_neg hz]
      exact List.mem_append.mpr (Or.inl hp)
  · intro hz
    rw [updateAirportMarkers, if_pos hz]

/-- Witness for pinned_always_shown: LHR lies outside the test box and the
zoom is 3 (below the threshold), yet its pinned marker is returned, and it
is the only thing returned. -/
theorem pinned_always_shown_witness :
    lhrAirport ∈ updateAirportMarkers (testAirports 3) [lhrAirport] testBox 3 ∧
    updateAirportMarkers (testAirports 3) [lhrAirport] testBox 3 = [lhrAirport] :=
  ⟨(pinned_always_shown (testAirports 3) [lhrAirport] testBox 3).1 lhrAirport
      (by simp),
   (pinned_always_shown (testAirports 3) [lhrAirport] testBox 3).2 (by decide)⟩

/-- C10: an airport with an absent level can only appear in the marker set
as a pinned entry — the strict a.level === currentLevel filter never
matches it — even though the maxLevel aggregate treats an absent level
as 1. -/
theorem undefined_level_never_created (airports pinned : List Airport)
    (b : Box) (zoom : ℤ) :
    (∀ a : Airport, a ∈ updateAirportMarkers airports pinned b zoom →
      a.level = none → a ∈ pinned) ∧
    (∀ a : Airport, a.level = none → levelOrOne a = 1) := by
  constructor
  · intro a hmem hnone
    rw [updateAirportMarkers] at hmem
    by_cases hz : zoom < MIN_ZOOM_FOR_MARKERS
    · rw [if_pos hz] at hmem; exact hmem
    · rw [if_neg hz] at hmem
      rcases List.mem_append.mp hmem with hp | hc
      · exact hp
      · exfalso
        have hshow := (List.mem_filter.mp hc).1
        rw [airportsToShow] at hshow
        have hacc : a ∈ accumulateLevels
            (airports.filter (fun a => boxContains b a)) (maxLevel airports) 1 [] := by
          by_cases hcap : MAX_VISIBLE_AIRPORTS <
              (accumulateLevels (airports.filter (fun a => boxContains b a))
                (maxLevel airports) 1 []).length
          · rw [if_pos hcap] at hshow
            exact List.mem_of_mem_take hshow
          · rw [if_neg hcap] at hshow
            exact hshow
        rcases mem_accumulateLevels _ _ _ _ _ hacc with hnil | ⟨-, c, hc2⟩
        · exact absurd hnil (List.not_mem_nil a)
        · rw [hnone] at hc2
          exact Option.noConfusion hc2
  · intro a hnone
    rw [levelOrOne, hnone]

/-- An airport record with no level field, for the C10 witness. -/
def noLevelAirport : Airport := ⟨"ZZZZ", "ZZZ", "No Level Field", "Nowhere", "Nowhere", 0, 0, none⟩

/-- Witness for undefined_level_never_created: the no-level airport sits in
view at sufficient zoom and appears in the output only because it is
pinned. -/
theorem undefined_level_never_created_witness :
    noLevelAirport ∈ [noLevelAirport] ∧ levelOrOne noLevelAirport = 1 :=
  ⟨(undefined_level_never_created (testAirports 3) [noLevelAirport] testBox 5).1
      noLevelAirport (by decide) rfl,
   (undefined_level_never_created (testAirports 3) [noLevelAirport] testBox 5).2
      noLevelAirport rfl⟩

/-- C3 counterexample: a pinned airport inside the capped accumulation
prefix DOES occupy a cap slot.  21 level-1 airports are in view and one of
them (testAirport 0) is pinned, so 20 non-pinned in-view airports are
available; the claim would put all 20 in the marker set on top of the
pinned one, but the selector emits only 19 non-pinned markers: the pinned
airport consumed one of the 20 slots of the accumulation prefix. -/
theorem pinned_occupies_cap_slot :
    ((updateAirportMarkers (testAirports 21) [testAirport 0] testBox 5).filter
        (fun a => !(([testAirport 0].map (fun p => p.icao)).contains a.icao))).length = 19 ∧
    ((testAirports 21).filter (fun a => boxContains testBox a &&
        !(([testAirport 0].map (fun p => p.icao)).contains a.icao))).length = 20 ∧
    (19 : ℕ) ≠ 20 := by
  refine ⟨by decide, by decide, by decide⟩

/-- C3 amended: pinned airports are always unioned into the marker set and
never dropped, but they are not exempt from the cap: the accumulated
prefix is capped at 20 with pinned members included, and the non-pinned
markers are exactly the prefix members that are not pinned, so their
number falls short of the prefix length by the number of pinned airports
occupying prefix slots. -/
theorem pinned_union_and_cap (airports pinned : List Airport) (b : Box) (zoom : ℤ)
    (hz : MIN_ZOOM_FOR_MARKERS ≤ zoom) :
    (∀ p ∈ pinned, p ∈ updateAirportMarkers airports pinned b zoom) ∧
    ((updateAirportMarkers airports pinned b zoom).length +
        ((airportsToShow airports b).filter
          (fun a => (pinned.map (fun p => p.icao)).contains a.icao)).length =
      pinned.length + (airportsToShow airports b).length) ∧
    (airportsToShow airports b).length ≤ MAX_VISIBLE_AIRPORTS := by
  have hznot : ¬ zoom < MIN_ZOOM_FOR_MARKERS := not_lt.mpr hz
  refine ⟨?_, ?_, ?_⟩
  · intro p hp
    rw [updateAirportMarkers, if_neg hznot]
    exact List.mem_append.mpr (Or.inl hp)
  · rw [updateAirportMarkers, if_neg hznot]
    simp only [List.length_append]
    have hpart := length_filter_partition
      (fun a => (pinned.map (fun p => p.icao)).contains a.icao)
      (airportsToShow airports b)
    have hswap : ((airportsToShow airports b).filter
        (fun a => !((pinned.map (fun p => p.icao)).contains a.icao))).length +
        ((airportsToShow airports b).filter
          (fun a => ((pinned.map (fun p => p.icao)).contains a.icao))).length =
        (airportsToShow airports b).length := by
      omega
    omega
  · rw [airportsToShow]
    by_cases hcap : MAX_VISIBLE_AIRPORTS <
        (accumulateLevels (airports.filter (fun a => boxContains b a))
          (maxLevel airports) 1 []).length
    · rw [if_pos hcap]
      simp [List.length_take]
    · rw [if_neg hcap]
      exact le_of_not_lt hcap

/-- Witness for pinned_union_and_cap on the 21-airport scenario. -/
theorem pinned_union_and_cap_witness :
    (∀ p ∈ [testAirport 0],
      p ∈ updateAirportMarkers (testAirports 21) [testAirport 0] testBox 5) ∧
    ((updateAirportMarkers (testAirports 21) [testAirport 0] testBox 5).length +
        ((airportsToShow (testAirports 21) testBox).filter
          (fun a => (([testAirport 0]).map (fun p => p.icao)).contains a.icao)).length =
      ([testAirport 0]).length + (airportsToShow (testAirports 21) testBox).length) ∧
    (airportsToShow (testAirports 21) testBox).length ≤ MAX_VISIBLE_AIRPORTS :=
  pinned_union_and_cap (testAirports 21) [testAirport 0] testBox 5 (by decide)

/-- C4 counterexample: 22 level-1 airports in view (more than the cap of
20), two of them pinned.  The claim demands exactly 20 non-pinned entries,
but the marker set has 20 entries of which only 18 are non-pinned: the
two pinned airports occupy two of the 20 prefix slots. -/
theorem cap_shortfall_with_pinned :
    (updateAirportMarkers (testAirports 22) [testAirport 0, testAirport 1]
        testBox 5).length = 20 ∧
    ((updateAirportMarkers (testAirports 22) [testAirport 0, testAirport 1]
        testBox 5).filter
      (fun a => !(([testAirport 0, testAirport 1].map (fun p => p.icao)).contains
        a.icao))).length = 18 ∧
    MAX_VISIBLE_AIRPORTS <
      ((testAirports 22).filter
        (fun a => boxContains testBox a && decide (a.level = some 1))).length ∧
    (18 : ℕ) ≠ 20 := by
  refine ⟨by decide, by decide, by decide, by decide⟩

/-- C4 amended: with no pinned airports, any viewport whose bounding box
holds more than 20 level-1 airports yields exactly 20 markers, all
non-pinned — the cap is reached exactly whenever enough level-1 airports
are in view and no pinned airport occupies a prefix slot. -/
theorem cap_exact_without_pinned (airports : List Airport) (b : Box) (zoom : ℤ)
    (hz : MIN_ZOOM_FOR_MARKERS ≤ zoom)
    (hcount : MAX_VISIBLE_AIRPORTS <
      ((airports.filter (fun a => boxContains b a)).filter
        (fun a => decide (a.level = some 1))).length) :
    (updateAirportMarkers airports [] b zoom).length = MAX_VISIBLE_AIRPORTS := by
  have hznot : ¬ zoom < MIN_ZOOM_FOR_MARKERS := not_lt.mpr hz
  rw [updateAirportMarkers, if_neg hznot]
  have hfilter : ((airportsToShow airports b).filter
      (fun a => !((([] : List Airport).map (fun p => p.icao)).contains a.icao))) =
      airportsToShow airports b := by
    apply List.filter_eq_self.mpr
    intro a _
    rfl
  simp only [hfilter, List.nil_append]
  -- the first loop iteration accumulates all level-1 in-view airports and
  -- exceeds the cap, so the loop stops and the slice truncates to 20
  obtain ⟨m, hm⟩ : ∃ m, maxLevel airports = m + 1 :=
    ⟨maxLevel airports - 1, by have := one_le_maxLevel airports; omega⟩
  have hacc : accumulateLevels (airports.filter (fun a => boxContains b a))
      (maxLevel airports) 1 [] =
      (airports.filter (fun a => boxContains b a)).filter
        (fun a => decide (a.level = some 1)) := by
    rw [hm, accumulateLevels, if_pos (by decide)]
    rw [List.nil_append]
    exact accumulateLevels_stop _ _ _ _ (by omega)
  rw [airportsToShow]
  simp only [hacc]
  rw [if_pos hcount]
  rw [List.length_take]
  omega

/-- Witness for cap_exact_without_pinned: 21 level-1 airports in view,
empty pinned set, zoom at the threshold. -/
theorem cap_exact_without_pinned_witness :
    (updateAirportMarkers (testAirports 21) [] testBox 5).length =
      MAX_VISIBLE_AIRPORTS :=
  cap_exact_without_pinned (testAirports 21) testBox 5 (by decide) (by decide)

/-! Airport Index search (app.jsx lines 293-325).  The filter lowercases
and trims the query, lowercases each field, and keeps airports where the
query occurs as a substring of name, city, iata or icao; results are
decorated with the distance to the map center (Leaflet distanceTo,
abstracted as the oracle `dist`), sorted ascending by that distance and
cut to the first 10.  ECMAScript requires Array.prototype.sort to be
stable, and a stable ascending sort has a unique result, so it is
modelled by insertion sort. -/

/-- needle is a leading run of hay (character lists). -/
def listStartsWith : List Char → List Char → Bool
  | [], _ => true
  | _ :: _, [] => false
  | c :: cs, d :: ds => decide (c = d) && listStartsWith cs ds

/-- JavaScript String.prototype.includes: needle occurs as a contiguous
run of hay at some position (always true for an empty needle). -/
def listIncludes (needle : List Char) : List Char → Bool
  | [] => listStartsWith needle []
  | d :: ds => listStartsWith needle (d :: ds) || listIncludes needle ds

/-- The search filter predicate of app.jsx lines 304-311 (query already
lowercased and trimmed). -/
def matchesQuery (query : String) (a : Airport) : Bool :=
  listIncludes query.data a.name.toLower.data ||
  listIncludes query.data a.city.toLower.data ||
  listIncludes query.data a.iata.toLower.data ||
  listIncludes query.data a.icao.toLower.data

/-- Ascending order on the decorated distance, the order induced by the
comparator (a, b) => a.distance - b.distance. -/
def distLE (p q : Airport × ℚ) : Prop := p.2 ≤ q.2

instance : DecidableRel distLE := fun p q => inferInstanceAs (Decidable (p.2 ≤ q.2))

instance : IsTotal (Airport × ℚ) distLE := ⟨fun p q => le_total p.2 q.2⟩

instance : IsTrans (Airport × ℚ) distLE := ⟨fun _ _ _ h1 h2 => le_trans h1 h2⟩

/-- The airports surviving the query filter: an empty searchQuery is
falsy in JavaScript, so the filter block of lines 302-312 is skipped and
every airport is kept. -/
def searchMatches (searchQuery : String) (airports : List Airport) : List Airport :=
  if searchQuery = "" then airports
  else airports.filter (matchesQuery (searchQuery.toLower.trim))

/-- The search effect of app.jsx lines 293-325: filter by the query,
decorate with the distance to the map center, stable ascending sort by
that distance, slice(0, 10). -/
def searchAirports (searchQuery : String) (dist : Airport → ℚ)
    (airports : List Airport) : List (Airport × ℚ) :=
  let decorated := (searchMatches searchQuery airports).map (fun a => (a, dist a))
  (List.insertionSort distLE decorated).take 10

theorem filter_orderedInsert {α : Type} (r : α → α → Prop) [DecidableRel r]
    (p : α → Bool) (a : α) (ha : p a = true)
    (hcompat : ∀ b, ¬ r a b → p b = false) :
    ∀ l : List α, (l.orderedInsert r a).filter p = a :: l.filter p := by
  intro l
  induction l with
  | nil => simp [List.orderedInsert, List.filter, ha]
  | cons b l ih =>
    rw [List.orderedInsert]
    by_cases hr : r a b
    · rw [if_pos hr, List.filter_cons_of_pos ha]
    · rw [if_neg hr, List.filter_cons_of_neg (by simp [hcompat b hr]), ih,
        List.filter_cons_of_neg (by simp [hcompat b hr])]

theorem filter_orderedInsert_neg {α : Type} (r : α → α → Prop) [DecidableRel r]
    (p : α → Bool) (a : α) (ha : p a = false) :
    ∀ l : List α, (l.orderedInsert r a).filter p = l.filter p := by
  intro l
  induction l with
  | nil => simp [List.orderedInsert, List.filter, ha]
  | cons b l ih =>
    rw [List.orderedInsert]
    by_cases hr : r a b
    · rw [if_pos hr, List.filter_cons_of_neg (by simp [ha])]
    · rw [if_neg hr]
      by_cases hb : p b = true
      · rw [List.filter_cons_of_pos hb, ih, List.filter_cons_of_pos hb]
      · rw [List.filter_cons_of_neg (by simpa using hb), ih,
          List.filter_cons_of_neg (by simpa using hb)]

/-- Stability of the insertion sort: the elements of any mutually-tied
class keep their relative input order. -/
theorem filter_insertionSort {α : Type} (r : α → α → Prop) [DecidableRel r]
    (p : α → Bool) (H : ∀ a b, p a = true → p b = true → r a b) :
    ∀ l : List α, (List.insertionSort r l).filter p = l.filter p := by
  intro l
  induction l with
  | nil => rfl
  | cons x l ih =>
    rw [List.insertionSort]
    by_cases hx : p x = true
    · rw [filter_orderedInsert r p x hx
        (fun b hrb => by
          by_cases hpb : p b = true
          · exact absurd (H x b hx hpb) hrb
          · simpa using hpb),
        ih, List.filter_cons_of_pos hx]
    · rw [filter_orderedInsert_neg r p x (by simpa using hx), ih,
        List.filter_cons_of_neg (by simpa using hx)]

theorem mem_searchMatches (s : String) (airports : List Airport) (a : Airport)
    (h : a ∈ searchMatches s airports) :
    a ∈ airports ∧ (s ≠ "" → matchesQuery (s.toLower.trim) a = true) := by
  rw [searchMatches] at h
  by_cases hs : s = ""
  · rw [if_pos hs] at h
    exact ⟨h, fun hcon => absurd hs hcon⟩
  · rw [if_neg hs] at h
    have hf := List.mem_filter.mp h
    exact ⟨hf.1, fun _ => hf.2⟩

/-- C7: the search results are drawn from the airports matching the
(lowercased, trimmed) query on name, city, iata or icao with an empty
query matching everything; each result carries its oracle distance; the
results are sorted ascending by distance; ties keep dataset order (every
equal-distance class of the output is an initial run of the same class of
the decorated match list); and at most 10 results are returned, exactly
min(10, all) of them for the empty query. -/
theorem search_results_spec (s : String) (dist : Airport → ℚ)
    (airports : List Airport) :
    (searchAirports s dist airports).length ≤ 10 ∧
    (∀ p ∈ searchAirports s dist airports,
      p.1 ∈ airports ∧ p.2 = dist p.1 ∧
      (s ≠ "" → matchesQuery (s.toLower.trim) p.1 = true)) ∧
    List.Sorted distLE (searchAirports s dist airports) ∧
    (∀ d0 : ℚ, ∃ t,
      (searchAirports s dist airports).filter (fun q => decide (q.2 = d0)) ++ t =
        ((searchMatches s airports).map (fun a => (a, dist a))).filter
          (fun q => decide (q.2 = d0))) ∧
    (s = "" → (searchAirports s dist airports).length = min 10 airports.length) := by
  set decorated := (searchMatches s airports).map (fun a => (a, dist a)) with hdec
  set sortd := List.insertionSort distLE decorated with hsortd
  have hdef : searchAirports s dist airports = sortd.take 10 := rfl
  refine ⟨?_, ?_, ?_, ?_, ?_⟩
  · rw [hdef]
    exact List.length_take_le 10 sortd
  · intro p hp
    rw [hdef] at hp
    have hpd : p ∈ decorated :=
      (List.perm_insertionSort distLE decorated).subset (List.mem_of_mem_take hp)
    rw [hdec] at hpd
    rcases List.mem_map.mp hpd with ⟨a, ha, rfl⟩
    rcases mem_searchMatches s airports a ha with ⟨hmem, hmatch⟩
    exact ⟨hmem, rfl, hmatch⟩
  · rw [hdef]
    exact List.Pairwise.sublist (List.take_sublist 10 sortd)
      (List.sorted_insertionSort distLE decorated)
  · intro d0
    have hstab : sortd.filter (fun q => decide (q.2 = d0)) =
        decorated.filter (fun q => decide (q.2 = d0)) :=
      filter_insertionSort distLE (fun q => decide (q.2 = d0))
        (fun a b ha hb => le_of_eq (by
          have ha2 : a.2 = d0 := of_decide_eq_true ha
          have hb2 : b.2 = d0 := of_decide_eq_true hb
          rw [ha2, hb2])) decorated
    refine ⟨(sortd.drop 10).filter (fun q => decide (q.2 = d0)), ?_⟩
    rw [hdef, ← List.filter_append, List.take_append_drop, hstab]
  · intro hs
    rw [hdef, List.length_take]
    have hlen : sortd.length = decorated.length :=
      (List.perm_insertionSort distLE decorated).length_eq
    rw [hlen, hdec, List.length_map, searchMatches, if_pos hs]

/-- The spec scenario for search ranking: three matching airports at
distances 10, 5 and 20 km from the reference point. -/
def scenarioDist : Airport → ℚ := fun a =>
  if a.icao = "AAAA" then 10 else if a.icao = "BBBB" then 5 else 20

def scenarioAirports : List Airport :=
  [⟨"AAAA", "AAA", "Alpha", "Alphaville", "X", 0, 0, some 1⟩,
   ⟨"BBBB", "BBB", "Beta", "Betatown", "X", 0, 0, some 1⟩,
   ⟨"CCCC", "CCC", "Gamma", "Gammaburg", "X", 0, 0, some 2⟩]

/-- Witness for search_results_spec on the empty query over the
three-airport scenario: the result keeps min(10, 3) = 3 entries. -/
theorem search_results_spec_witness :
    (searchAirports "" scenarioDist scenarioAirports).length =
      min 10 scenarioAirports.length :=
  (search_results_spec "" scenarioDist scenarioAirports).2.2.2.2 rfl

end PlaneCode
